import Mathlib

/-!
Shallow embedding of the FAST-TransferLib transfer-method selection engine
and provider execution layer.

Sources embedded here:
* src/demo-fix.js               — UnifiedTransferManager (selection, scoring)
* src/unnamed/part_002          — RobocopyProvider, XCopyProvider (windows.ts)
* src/unnamed/part_003          — CpProvider, TarProvider, ScpProvider (linux.ts)
* src/src/transfer/providers/macos.ts — DittoProvider, CpProvider (macOS)
* src/src/transfer/interfaces.ts — TransferOptions/TransferResult/TransferTarget
* src/src/transfer/advanced-utils.ts — FileOperationsManager (clipboard)

JavaScript tri-state option fields (undefined / true / false) are modelled
as Option Bool; numeric and string fields that participate in JS
truthiness tests are modelled with explicit helper functions below.
Subprocess execution, filesystem stats and the regex output scrapers are
external collaborators (spec §2, §4.6, §9) and are passed in as an
explicit oracle; every spawn attempt is recorded in a trace so that
"never spawns a subprocess" is a provable statement.
-/

namespace FastTransfer

/-- JS truthiness of an optional boolean field: only an explicit true is truthy. -/
def jsTruthy : Option Bool → Bool
  | some true => true
  | _ => false

/-- JS test x !== false on an optional boolean field. -/
def jsNotFalse : Option Bool → Bool
  | some false => false
  | _ => true

/-- JS truthiness of an optional numeric field: undefined and 0 are falsy. -/
def jsTruthyNat : Option Nat → Bool
  | some n => n != 0
  | none => false

/-- JS expression v || d for an optional numeric v (0 is falsy and falls back to d). -/
def jsNumOr (v : Option Int) (d : Int) : Int :=
  match v with
  | some c => if c = 0 then d else c
  | none => d

/-- JS template-string rendering of a possibly-undefined string. -/
def jsStr (v : Option String) : String :=
  v.getD "undefined"

/-- JS truthiness of an optional string field: undefined and the empty
string are falsy. -/
def jsTruthyStr : Option String → Bool
  | some s => s != ""
  | none => false

/-- JS chain v || d on optional strings (the empty string falls back to d). -/
def jsStrOr (v : Option String) (d : String) : String :=
  match v with
  | some s => if s = "" then d else s
  | none => d

/-- Transfer strategy (UnifiedTransferOptions.strategy, demo-fix.js). -/
inductive Strategy
  | fastest
  | mostCompatible
  | preserveMetadata
  | compress
  | network
deriving DecidableEq, Repr

/-- Provider identifiers: the per-platform tool classes, plus the rsync wrapper.
macCp is the macOS CpProvider (its .name string is also "cp"). -/
inductive ProviderName
  | robocopy
  | xcopy
  | ditto
  | macCp
  | cp
  | tar
  | scp
  | rsync
deriving DecidableEq, Repr

/-- The .name string of each provider class. -/
def providerKey : ProviderName → String
  | .robocopy => "robocopy"
  | .xcopy => "xcopy"
  | .ditto => "ditto"
  | .macCp => "cp"
  | .cp => "cp"
  | .tar => "tar"
  | .scp => "scp"
  | .rsync => "rsync"

/-- FallbackCapabilities (interfaces.ts). -/
structure FallbackCapabilities where
  supportsCompression : Bool
  supportsProgress : Bool
  supportsResume : Bool
  supportsDelete : Bool
  supportsSymlinks : Bool
  supportsPermissions : Bool
  supportsTimestamps : Bool
  supportsNetworkTransfer : Bool
  supportsAuthentication : Bool
  maxRetries : Nat
  preferredFor : List String
deriving DecidableEq, Repr

/-- The static capabilities record of each provider class, transcribed from
the class field initialisers. -/
def capabilitiesOf : ProviderName → FallbackCapabilities
  | .robocopy =>
    { supportsCompression := false, supportsProgress := true, supportsResume := true
      supportsDelete := true, supportsSymlinks := true, supportsPermissions := true
      supportsTimestamps := true, supportsNetworkTransfer := true, supportsAuthentication := true
      maxRetries := 10
      preferredFor := ["windows-local", "windows-network", "large-files", "resume-transfers"] }
  | .xcopy =>
    { supportsCompression := false, supportsProgress := false, supportsResume := false
      supportsDelete := false, supportsSymlinks := false, supportsPermissions := false
      supportsTimestamps := true, supportsNetworkTransfer := true, supportsAuthentication := false
      maxRetries := 0
      preferredFor := ["simple-copy", "basic-backup"] }
  | .ditto =>
    { supportsCompression := true, supportsProgress := false, supportsResume := false
      supportsDelete := false, supportsSymlinks := true, supportsPermissions := true
      supportsTimestamps := true, supportsNetworkTransfer := false, supportsAuthentication := false
      maxRetries := 0
      preferredFor := ["macos-archive", "preserve-metadata", "app-bundles", "resource-forks"] }
  | .macCp =>
    { supportsCompression := false, supportsProgress := false, supportsResume := false
      supportsDelete := false, supportsSymlinks := true, supportsPermissions := true
      supportsTimestamps := true, supportsNetworkTransfer := false, supportsAuthentication := false
      maxRetries := 0
      preferredFor := ["simple-copy", "basic-backup", "unix-systems"] }
  | .cp =>
    { supportsCompression := false, supportsProgress := false, supportsResume := false
      supportsDelete := false, supportsSymlinks := true, supportsPermissions := true
      supportsTimestamps := true, supportsNetworkTransfer := false, supportsAuthentication := false
      maxRetries := 0
      preferredFor := ["simple-copy", "basic-backup", "unix-systems", "local-transfer"] }
  | .tar =>
    { supportsCompression := true, supportsProgress := true, supportsResume := false
      supportsDelete := false, supportsSymlinks := true, supportsPermissions := true
      supportsTimestamps := true, supportsNetworkTransfer := false, supportsAuthentication := false
      maxRetries := 0
      preferredFor := ["compressed-transfer", "archive-creation", "preserve-permissions", "sparse-files"] }
  | .scp =>
    { supportsCompression := true, supportsProgress := true, supportsResume := false
      supportsDelete := false, supportsSymlinks := false, supportsPermissions := true
      supportsTimestamps := true, supportsNetworkTransfer := true, supportsAuthentication := true
      maxRetries := 3
      preferredFor := ["secure-network-transfer", "ssh-based", "remote-copy"] }
  | .rsync =>
    { supportsCompression := true, supportsProgress := true, supportsResume := true
      supportsDelete := true, supportsSymlinks := true, supportsPermissions := true
      supportsTimestamps := true, supportsNetworkTransfer := true, supportsAuthentication := true
      maxRetries := 10
      preferredFor := ["all-purposes", "network-transfer", "incremental-backup"] }

/-- TransferTarget (interfaces.ts); the protocol tag and mountPoint are not
read by the code modelled here. -/
structure TransferTarget where
  path : String
  host : Option String := none
  user : Option String := none
  port : Option Nat := none
  isRemote : Bool := false
deriving DecidableEq, Repr

/-- UnifiedTransferOptions (demo-fix.js) together with the inherited
TransferOptions fields (interfaces.ts) that the embedded code reads.
The TS field named include is called includePatterns here. -/
structure UnifiedTransferOptions where
  archive : Option Bool := none
  verbose : Option Bool := none
  compress : Option Bool := none
  delete : Option Bool := none
  dryRun : Option Bool := none
  exclude : Option (List String) := none
  includePatterns : Option (List String) := none
  progress : Option Bool := none
  recursive : Option Bool := none
  preserveLinks : Option Bool := none
  preservePerms : Option Bool := none
  preserveTimes : Option Bool := none
  checksum : Option Bool := none
  bandwidth : Option Nat := none
  timeout : Option Nat := none
  retries : Option Nat := none
  username : Option String := none
  password : Option String := none
  keyFile : Option String := none
  customArgs : Option (List String) := none
  preferRsync : Option Bool := none
  forceNative : Option Bool := none
  preferredMethod : Option String := none
  allowNetworkFallback : Option Bool := none
  strategy : Option Strategy := none
deriving DecidableEq, Repr

/-- MethodSelectionResult (demo-fix.js), with the provider identified by name. -/
structure MethodSelectionResult where
  provider : ProviderName
  reason : String
  rsyncAvailable : Bool
  fallbackUsed : Bool
deriving DecidableEq, Repr

/-- TransferResult (interfaces.ts); the method field holds the tool key string. -/
structure TransferResult where
  success : Bool
  exitCode : Int
  output : String
  error : Option String := none
  bytesTransferred : Option Nat := none
  filesTransferred : Option Nat := none
  duration : Option Nat := none
  transferRate : Option String := none
  method : String
  fallbackUsed : Bool
deriving DecidableEq, Repr

/-- ValidationResult shape of TransferProvider.validateTargets: valid is
errors.length === 0. -/
structure ValidationResult where
  valid : Bool
  errors : List String
deriving DecidableEq, Repr

/-- Node path.dirname (posix): index of the last separator before the last
path component, computed here by stripping trailing separators and then the
last component from the reversed character list. -/
def dirname (p : String) : String :=
  let cs := p.toList
  if cs.isEmpty then "."
  else
    let hasRoot := cs.head? = some '/'
    let rev1 := cs.reverse.dropWhile (fun c => c = '/')
    let rev2 := rev1.dropWhile (fun c => c != '/')
    if rev2.length ≤ 1 then (if hasRoot then "/" else ".")
    else if hasRoot && rev2.length = 2 then "//"
    else String.mk (cs.take (rev2.length - 1))

/-- An abstract filesystem for fs.existsSync: the set of paths that exist. -/
def FsExists := String → Bool

/-- The shared local validateTargets logic of RobocopyProvider (windows.ts;
XCopyProvider delegates to it), CpProvider/TarProvider (linux.ts) and
DittoProvider (macos.ts; the macOS CpProvider delegates to it): the local
source must exist and the local destination's parent directory must exist;
both checks are skipped for remote targets. -/
def validateLocalTargets (fs : FsExists) (source destination : TransferTarget) : ValidationResult :=
  let errors :=
    (if !source.isRemote && !fs source.path then
      ["Source path does not exist: " ++ source.path] else [])
    ++ (if !destination.isRemote && !fs (dirname destination.path) then
      ["Destination directory does not exist: " ++ dirname destination.path] else [])
  { valid := errors.isEmpty, errors := errors }

/-- ScpProvider.validateTargets (linux.ts): scp needs at least one remote
endpoint, and every remote endpoint needs a host. -/
def validateScpTargets (source destination : TransferTarget) : ValidationResult :=
  let errors :=
    (if !source.isRemote && !destination.isRemote then
      ["SCP requires at least one remote target"] else [])
    ++ (([source, destination].filter (fun t => t.isRemote)).filterMap (fun t =>
      if t.host = none then some ("Remote target missing host: " ++ t.path) else none))
  { valid := errors.isEmpty, errors := errors }

/-- validateTargets dispatch over the provider classes.  The rsync wrapper
(RsyncWrapperProvider.validateTargets, demo-fix.js) always reports valid. -/
def validateTargets (fs : FsExists) : ProviderName → TransferTarget → TransferTarget → ValidationResult
  | .scp => fun source destination => validateScpTargets source destination
  | .rsync => fun _ _ => { valid := true, errors := [] }
  | _ => fun source destination => validateLocalTargets fs source destination

/-! ## Scoring (UnifiedTransferManager.calculateProviderScore, demo-fix.js)

The source accumulates one score in three blocks: the per-strategy switch,
the bonus block and the penalty block.  They are transcribed as three sums
combined below. -/

/-- The per-strategy switch block of calculateProviderScore. -/
def strategyScore (p : ProviderName) (strategy : Strategy) (isNetworkTransfer : Bool) : Int :=
  let caps := capabilitiesOf p
  match strategy with
  | .fastest =>
    (if providerKey p = "robocopy" then 10 else 0)
    + (if providerKey p = "rsync" then 15 else 0)
    + (if caps.supportsProgress then 3 else 0)
    + (if caps.supportsResume then 5 else 0)
  | .mostCompatible =>
    (if providerKey p = "cp" then 10 else 0)
    + (if providerKey p = "xcopy" then 8 else 0)
    + (if !caps.supportsNetworkTransfer && !isNetworkTransfer then 5 else 0)
  | .preserveMetadata =>
    (if caps.supportsPermissions then 5 else 0)
    + (if caps.supportsTimestamps then 5 else 0)
    + (if caps.supportsSymlinks then 3 else 0)
    + (if providerKey p = "ditto" then 8 else 0)
    + (if providerKey p = "robocopy" then 7 else 0)
  | .compress =>
    (if caps.supportsCompression then 10 else 0)
    + (if providerKey p = "tar" then 8 else 0)
    + (if providerKey p = "ditto" then 6 else 0)
  | .network =>
    (if caps.supportsNetworkTransfer then 10 else 0)
    + (if caps.supportsAuthentication then 5 else 0)
    + (if providerKey p = "scp" then 8 else 0)
    + (if providerKey p = "robocopy" then 6 else 0)

/-- The bonus block of calculateProviderScore: points for requested options
the candidate supports. -/
def optionBonus (p : ProviderName) (options : UnifiedTransferOptions) (isNetworkTransfer : Bool) : Int :=
  let caps := capabilitiesOf p
  (if jsTruthy options.compress && caps.supportsCompression then 3 else 0)
  + (if jsTruthy options.progress && caps.supportsProgress then 2 else 0)
  + (if jsTruthy options.delete && caps.supportsDelete then 2 else 0)
  + (if isNetworkTransfer && caps.supportsNetworkTransfer then 5 else 0)

/-- The penalty block of calculateProviderScore: points subtracted for
requested preservation options the candidate does not support. -/
def optionPenalty (p : ProviderName) (options : UnifiedTransferOptions) : Int :=
  let caps := capabilitiesOf p
  (if jsTruthy options.preservePerms && !caps.supportsPermissions then 5 else 0)
  + (if jsTruthy options.preserveTimes && !caps.supportsTimestamps then 3 else 0)
  + (if jsTruthy options.preserveLinks && !caps.supportsSymlinks then 2 else 0)

/-- UnifiedTransferManager.calculateProviderScore. -/
def calculateProviderScore (p : ProviderName) (strategy : Strategy)
    (options : UnifiedTransferOptions) (isNetworkTransfer : Bool) : Int :=
  strategyScore p strategy isNetworkTransfer
  + optionBonus p options isNetworkTransfer
  - optionPenalty p options

/-! ## Ranking

suitableProviders.sort((a, b) => b.score - a.score) in
selectFallbackProvider is Array.prototype.sort, stable per ES2019, so ties
keep insertion order.  A stable sort is uniquely determined by its
comparator; it is rendered here as the standard stable insertion sort by
descending score. -/

/-- A scored candidate, as pushed into suitableProviders. -/
abbrev Scored := ProviderName × Int

/-- Stable descending insert: a new element goes before the first strictly
smaller score, and after existing elements with an equal score (the new
element came later in the original list). -/
def insertScoredDesc (x : Scored) : List Scored → List Scored
  | [] => [x]
  | y :: ys => if y.2 ≤ x.2 then x :: y :: ys else y :: insertScoredDesc x ys

/-- Stable sort by descending score. -/
def sortScoredDesc : List Scored → List Scored
  | [] => []
  | x :: xs => insertScoredDesc x (sortScoredDesc xs)

/-! ## Manager state and selection (demo-fix.js) -/

/-- Host platform kinds distinguished by os.platform() in
initializePlatformProviders. -/
inductive OsKind
  | win32
  | darwin
  | linux
  | other
deriving DecidableEq, Repr

/-- UnifiedTransferManager.initializePlatformProviders: the per-platform
provider registration order. -/
def platformProviders : OsKind → List ProviderName
  | .win32 => [.robocopy, .xcopy]
  | .darwin => [.ditto, .macCp, .scp]
  | .linux => [.cp, .tar, .scp]
  | .other => [.cp]

/-- Manager state after initialize(): the rsync availability flag and the
availableProviders map.  The JS Map is keyed by provider .name and
iterates in insertion order, so it is a list in registration order. -/
structure ManagerState where
  rsyncAvailable : Bool
  availableProviders : List ProviderName
deriving DecidableEq, Repr

/-- The availableProviders map built by initialize(): the platform
providers, in registration order, whose isAvailable() probe succeeded. -/
def availableProvidersOf (platform : OsKind) (avail : ProviderName → Bool) : List ProviderName :=
  (platformProviders platform).filter avail

/-- availableProviders.has / .get by the provider .name key. -/
def lookupProvider (st : ManagerState) (nm : String) : Option ProviderName :=
  st.availableProviders.find? (fun p => providerKey p = nm)

/-- The filter-and-score loop of selectFallbackProvider: drop candidates
that lack network-transfer capability on a cross-host transfer unless
network fallback is allowed, drop candidates failing validateTargets, and
score the rest. -/
def suitableProviders (fs : FsExists) (st : ManagerState)
    (source destination : TransferTarget) (options : UnifiedTransferOptions) : List Scored :=
  let isNetworkTransfer := source.isRemote || destination.isRemote
  let strategy := options.strategy.getD .mostCompatible
  st.availableProviders.filterMap (fun p =>
    if isNetworkTransfer && !(capabilitiesOf p).supportsNetworkTransfer
        && !(jsTruthy options.allowNetworkFallback) then
      none
    else if !(validateTargets fs p source destination).valid then
      none
    else
      some (p, calculateProviderScore p strategy options isNetworkTransfer))

/-- UnifiedTransferManager.selectFallbackProvider: throw when no candidate
survives, otherwise sort by descending score and take the first. -/
def selectFallbackProvider (fs : FsExists) (st : ManagerState)
    (source destination : TransferTarget) (options : UnifiedTransferOptions) :
    Except String ProviderName :=
  match (sortScoredDesc (suitableProviders fs st source destination options)).head? with
  | none => .error "No suitable transfer providers available for the given targets and options"
  | some (p, _) => .ok p

/-- The preferred-method branch of selectTransferMethod: a non-empty
preferredMethod that is in availableProviders and passes validateTargets
is selected immediately. -/
def preferredMethodHit (fs : FsExists) (st : ManagerState)
    (source destination : TransferTarget) (options : UnifiedTransferOptions) :
    Option MethodSelectionResult :=
  match options.preferredMethod with
  | none => none
  | some m =>
    if m = "" then none
    else
      match lookupProvider st m with
      | none => none
      | some p =>
        if (validateTargets fs p source destination).valid then
          some { provider := p, reason := "User preferred method: " ++ m
                 rsyncAvailable := st.rsyncAvailable, fallbackUsed := true }
        else none

/-- UnifiedTransferManager.selectTransferMethod. -/
def selectTransferMethod (fs : FsExists) (st : ManagerState)
    (source destination : TransferTarget) (options : UnifiedTransferOptions) :
    Except String MethodSelectionResult :=
  if jsTruthy options.forceNative then
    (selectFallbackProvider fs st source destination options).map (fun p =>
      { provider := p, reason := "Native tools forced by user"
        rsyncAvailable := st.rsyncAvailable, fallbackUsed := true })
  else
    match preferredMethodHit fs st source destination options with
    | some r => .ok r
    | none =>
      if st.rsyncAvailable && jsNotFalse options.preferRsync then
        .ok { provider := .rsync, reason := "Rsync is available and preferred"
              rsyncAvailable := true, fallbackUsed := false }
      else
        (selectFallbackProvider fs st source destination options).map (fun p =>
          { provider := p
            reason := if st.rsyncAvailable then "Fallback method preferred" else "Rsync not available"
            rsyncAvailable := st.rsyncAvailable, fallbackUsed := true })

/-! ## Execution layer (providers' transfer methods)

Subprocess execution, fs.statSync, the file counters and the regex output
scrapers (parseRobocopyStats, parseXCopyOutput, parseScpOutput,
calculateTransferRate) are external collaborators; they are supplied as an
oracle.  Every subprocess invocation (spawn or execSync) is recorded in a
trace returned alongside the TransferResult. -/

/-- Result of a resolved spawn promise: executeRobocopy/executeCp/
executeTar/executeScp/executeDitto resolve on the close event with
exitCode = code || 0, so the code is a natural number. -/
structure ExecOutcome where
  exitCode : Nat
  output : String
  error : String
deriving DecidableEq, Repr

/-- A JavaScript exception as caught by the providers' catch blocks: a
message plus the optional numeric code / status fields the blocks read.
Spawn errors such as ENOENT carry a string code, which is not a number;
such errors have both fields none here. -/
structure JsError where
  message : String
  code : Option Int := none
  status : Option Int := none
deriving DecidableEq, Repr

/-- A recorded subprocess invocation: command and argument list (execSync
string invocations carry the whole command line and an empty list). -/
abbrev SpawnCall := String × List String

/-- RsyncCompatibilityResult (rsyncChecker.ts): the fields the manager
reads are availability and the optional command prefix (e.g. wsl); the
remaining report fields are not read by the embedded paths. -/
structure RsyncCompatibilityResult where
  isAvailable : Bool
  commandPrefix : Option String := none
  version : Option String := none
  errorMessage : Option String := none
deriving DecidableEq, Repr

/-- RsyncOptions (rsync.ts).  The TS field named include is called
includePatterns here. -/
structure RsyncOptions where
  archive : Option Bool := none
  verbose : Option Bool := none
  compress : Option Bool := none
  delete : Option Bool := none
  dryRun : Option Bool := none
  exclude : Option (List String) := none
  includePatterns : Option (List String) := none
  progress : Option Bool := none
  recursive : Option Bool := none
  preserveLinks : Option Bool := none
  preservePerms : Option Bool := none
  preserveTimes : Option Bool := none
  checksum : Option Bool := none
  customArgs : Option (List String) := none
  sshKey : Option String := none
  sshPort : Option Nat := none
  sshUser : Option String := none
  sshOptions : Option (List String) := none
  bandwidth : Option Nat := none
  timeout : Option Nat := none
deriving DecidableEq, Repr

/-- RsyncTransferResult (rsync.ts). -/
structure RsyncTransferResult where
  success : Bool
  exitCode : Int
  output : String
  error : Option String := none
  bytesTransferred : Option Nat := none
  filesTransferred : Option Nat := none
  duration : Option Nat := none
deriving DecidableEq, Repr

/-- Split a character list at the first occurrence of c, when present. -/
def splitFirst (c : Char) : List Char → Option (List Char × List Char)
  | [] => none
  | x :: xs =>
    if x = c then some ([], xs)
    else
      match splitFirst c xs with
      | some (l, r) => some (x :: l, r)
      | none => none

/-- The external collaborators of the execution layer. -/
structure SysOracle where
  /-- spawn / execSync of a tool; may raise. -/
  exec : String → List String → Except JsError ExecOutcome
  /-- fs.statSync(path).isDirectory(); raises e.g. ENOENT. -/
  statIsDir : String → Except JsError Bool
  /-- countTransferredFiles (a recursive readdir walk). -/
  countFiles : String → Nat
  /-- parseRobocopyStats: (bytesTransferred, filesTransferred) regex scrape. -/
  robocopyStats : String → Nat × Nat
  /-- parseXCopyOutput: files-copied count regex scrape. -/
  xcopyFilesCopied : String → Nat
  /-- parseScpOutput: non-blank output line count. -/
  scpFilesCopied : String → Nat
  /-- calculateTransferRate(bytes, milliseconds) formatted string. -/
  rateFmt : Nat → Nat → String
  /-- RsyncCompatibilityChecker.checkCompatibility() as awaited by
  RsyncManager.initialize (may raise; the initialize catch swallows it). -/
  rsyncCompat : Except JsError RsyncCompatibilityResult
  /-- The sent/received-bytes and files-transferred regex scrapes of
  RsyncManager.sync: (bytesTransferred, filesTransferred). -/
  rsyncStats : String → Option Nat × Option Nat
  /-- Date.now() - startTime at result construction. -/
  elapsed : Nat

/-- args.join(' '). -/
def joinSp (args : List String) : String :=
  String.intercalate " " args

/-- The catch block shared by the spawn-based providers (robocopy, cp,
ditto, scp, tar): exitCode is err.code || -1. -/
def catchResultCode (method : String) (e : JsError) (elapsed : Nat) : TransferResult :=
  { success := false, exitCode := jsNumOr e.code (-1), output := ""
    error := some e.message, duration := some elapsed, method := method, fallbackUsed := true }

/-- The catch block of the execSync-based providers (xcopy, macOS cp):
exitCode is err.status || -1. -/
def catchResultStatus (method : String) (e : JsError) (elapsed : Nat) : TransferResult :=
  { success := false, exitCode := jsNumOr e.status (-1), output := ""
    error := some e.message, duration := some elapsed, method := method, fallbackUsed := true }

/-- RobocopyProvider.buildUncPath: requires a (truthy) host, converts a
unix-style path to backslashes and prefixes the host share. -/
def buildUncPath (target : TransferTarget) : Except String String :=
  match target.host with
  | none => .error "Host required for network transfer"
  | some h =>
    if h = "" then .error "Host required for network transfer"
    else
      let uncPath := target.path
      if uncPath.startsWith "\\\\" then .ok uncPath
      else
        let uncPath := if uncPath.startsWith "/" then uncPath.replace "/" "\\" else uncPath
        .ok ("\\\\" ++ h ++ uncPath)

/-- RobocopyProvider.buildRobocopyArgs.  buildUncPath may throw, which the
transfer catch block converts to a failure result. -/
def buildRobocopyArgs (source destination : TransferTarget)
    (options : UnifiedTransferOptions) : Except String (List String) :=
  (if source.isRemote then buildUncPath source else .ok source.path).bind fun sourcePath =>
  (if destination.isRemote then buildUncPath destination else .ok destination.path).bind fun destPath =>
  .ok (["\"" ++ sourcePath ++ "\"", "\"" ++ destPath ++ "\"", "*.*"]
    ++ (if jsNotFalse options.recursive then ["/E"] else [])
    ++ (if jsNotFalse options.archive then ["/COPYALL"] else [])
    ++ (if jsNotFalse options.preserveTimes then ["/DCOPY:DAT"] else [])
    ++ (if jsTruthy options.delete then ["/PURGE"] else [])
    ++ (if jsTruthyNat options.retries then ["/R:", toString (options.retries.getD 0)] else [])
    ++ (if jsTruthyNat options.timeout then ["/W:", toString (options.timeout.getD 0)] else [])
    ++ (if jsTruthy options.progress then ["/TEE"] else [])
    ++ (if jsTruthy options.verbose then ["/V"] else ["/NP"])
    ++ (match options.exclude with
        | some l => (l.map (fun pat => ["/XF", pat])).flatten
        | none => [])
    ++ (if jsTruthyNat options.bandwidth then
          ["/IPG:", toString ((options.bandwidth.getD 0 * 1024 + 999) / 1000)] else [])
    ++ options.customArgs.getD [])

/-- RobocopyProvider.transfer. -/
def robocopyTransfer (sys : SysOracle) (source destination : TransferTarget)
    (options : UnifiedTransferOptions) : TransferResult × List SpawnCall :=
  match buildRobocopyArgs source destination options with
  | .error msg => (catchResultCode "robocopy" { message := msg } sys.elapsed, [])
  | .ok args =>
    if jsTruthy options.dryRun then
      ({ success := true, exitCode := 0
         output := "Would execute: robocopy " ++ joinSp args
         duration := some sys.elapsed, method := "robocopy", fallbackUsed := true }, [])
    else
      match sys.exec "robocopy" args with
      | .error e => (catchResultCode "robocopy" e sys.elapsed, [("robocopy", args)])
      | .ok r =>
        -- Robocopy exit codes: 0-7 are success, 8+ are errors
        let success := decide (r.exitCode < 8)
        let stats := sys.robocopyStats r.output
        ({ success := success, exitCode := (r.exitCode : Int), output := r.output
           error := if success then none else some r.error
           bytesTransferred := some stats.1, filesTransferred := some stats.2
           duration := some sys.elapsed
           transferRate := some (sys.rateFmt stats.1 sys.elapsed)
           method := "robocopy", fallbackUsed := true }, [("robocopy", args)])

/-- XCopyProvider.buildXCopyArgs. -/
def buildXCopyArgs (source destination : TransferTarget)
    (options : UnifiedTransferOptions) : List String :=
  ["\"" ++ source.path ++ "\"", "\"" ++ destination.path ++ "\""]
  ++ (if jsNotFalse options.recursive then ["/E"] else [])
  ++ (if jsNotFalse options.archive || jsNotFalse options.preserveTimes then ["/K"] else [])
  ++ ["/I", "/Y"]
  ++ (if jsTruthy options.verbose then ["/F"] else [])

/-- XCopyProvider.transfer (execSync based; a completed execSync means exit
code 0, a nonzero exit raises with err.status set). -/
def xcopyTransfer (sys : SysOracle) (source destination : TransferTarget)
    (options : UnifiedTransferOptions) : TransferResult × List SpawnCall :=
  let args := buildXCopyArgs source destination options
  if jsTruthy options.dryRun then
    ({ success := true, exitCode := 0
       output := "Would execute: xcopy " ++ joinSp args
       duration := some sys.elapsed, method := "xcopy", fallbackUsed := true }, [])
  else
    let cmd := "xcopy " ++ joinSp args
    match sys.exec cmd [] with
    | .error e => (catchResultStatus "xcopy" e sys.elapsed, [(cmd, [])])
    | .ok r =>
      ({ success := true, exitCode := 0, output := r.output
         filesTransferred := some (sys.xcopyFilesCopied r.output)
         duration := some sys.elapsed, method := "xcopy", fallbackUsed := true }, [(cmd, [])])

/-- CpProvider.buildCpArgs (linux.ts). -/
def buildCpArgs (source destination : TransferTarget)
    (options : UnifiedTransferOptions) : List String :=
  (if jsNotFalse options.recursive then ["-R"] else [])
  ++ (if jsNotFalse options.archive then ["-a"]
      else
        (if jsNotFalse options.preservePerms then ["--preserve=mode"] else [])
        ++ (if jsNotFalse options.preserveTimes then ["--preserve=timestamps"] else [])
        ++ (if jsNotFalse options.preserveLinks then ["--preserve=links"] else []))
  ++ (if jsTruthy options.verbose then ["-v"] else [])
  ++ ["-u", "-f", "\"" ++ source.path ++ "\"", "\"" ++ destination.path ++ "\""]

/-- CpProvider.transfer (linux.ts). -/
def cpTransfer (sys : SysOracle) (source destination : TransferTarget)
    (options : UnifiedTransferOptions) : TransferResult × List SpawnCall :=
  let args := buildCpArgs source destination options
  if jsTruthy options.dryRun then
    ({ success := true, exitCode := 0
       output := "Would execute: cp " ++ joinSp args
       duration := some sys.elapsed, method := "cp", fallbackUsed := true }, [])
  else
    match sys.exec "cp" args with
    | .error e => (catchResultCode "cp" e sys.elapsed, [("cp", args)])
    | .ok r =>
      ({ success := decide (r.exitCode = 0), exitCode := (r.exitCode : Int), output := r.output
         error := if r.exitCode = 0 then none else some r.error
         filesTransferred := some (sys.countFiles destination.path)
         duration := some sys.elapsed, method := "cp", fallbackUsed := true }, [("cp", args)])

/-- CpProvider.buildCpArgs (macos.ts; differs from the linux builder). -/
def buildMacCpArgs (source destination : TransferTarget)
    (options : UnifiedTransferOptions) : List String :=
  (if jsNotFalse options.recursive then ["-R"] else [])
  ++ (if jsNotFalse options.preservePerms && jsNotFalse options.preserveTimes then ["-p"] else [])
  ++ (if jsNotFalse options.preserveLinks then ["-P"] else [])
  ++ (if jsTruthy options.verbose then ["-v"] else [])
  ++ ["-f", "\"" ++ source.path ++ "\"", "\"" ++ destination.path ++ "\""]

/-- CpProvider.transfer (macos.ts; execSync based). -/
def macCpTransfer (sys : SysOracle) (source destination : TransferTarget)
    (options : UnifiedTransferOptions) : TransferResult × List SpawnCall :=
  let args := buildMacCpArgs source destination options
  if jsTruthy options.dryRun then
    ({ success := true, exitCode := 0
       output := "Would execute: cp " ++ joinSp args
       duration := some sys.elapsed, method := "cp", fallbackUsed := true }, [])
  else
    let cmd := "cp " ++ joinSp args
    match sys.exec cmd [] with
    | .error e => (catchResultStatus "cp" e sys.elapsed, [(cmd, [])])
    | .ok r =>
      ({ success := true, exitCode := 0, output := r.output
         filesTransferred := some (sys.countFiles destination.path)
         duration := some sys.elapsed, method := "cp", fallbackUsed := true }, [(cmd, [])])

/-- DittoProvider.buildDittoArgs. -/
def buildDittoArgs (source destination : TransferTarget)
    (options : UnifiedTransferOptions) : List String :=
  (if jsTruthy options.verbose then ["-V"] else [])
  ++ (if jsNotFalse options.preservePerms then ["--keepParent"] else [])
  ++ (if jsTruthy options.compress then ["--compressionlevel", "6"] else [])
  ++ (match options.exclude with
      | some l => if l.contains ".DS_Store" then ["--noextattr"] else []
      | none => [])
  ++ [source.path, destination.path]

/-- DittoProvider.transfer. -/
def dittoTransfer (sys : SysOracle) (source destination : TransferTarget)
    (options : UnifiedTransferOptions) : TransferResult × List SpawnCall :=
  let args := buildDittoArgs source destination options
  if jsTruthy options.dryRun then
    ({ success := true, exitCode := 0
       output := "Would execute: ditto " ++ joinSp args
       duration := some sys.elapsed, method := "ditto", fallbackUsed := true }, [])
  else
    match sys.exec "ditto" args with
    | .error e => (catchResultCode "ditto" e sys.elapsed, [("ditto", args)])
    | .ok r =>
      ({ success := decide (r.exitCode = 0), exitCode := (r.exitCode : Int), output := r.output
         error := if r.exitCode = 0 then none else some r.error
         filesTransferred := some (sys.countFiles destination.path)
         duration := some sys.elapsed, method := "ditto", fallbackUsed := true }, [("ditto", args)])

/-- JS chain a || b || d on optional numbers (0 falsy). -/
def jsNatOr (v : Option Nat) (d : Nat) : Nat :=
  match v with
  | some n => if n = 0 then d else n
  | none => d

/-- The user@host:path rendering used by ScpProvider.buildScpArgs. -/
def scpTargetString (t : TransferTarget) : String :=
  if t.isRemote then
    (match t.user with
     | some u => if u = "" then "" else u ++ "@"
     | none => "")
    ++ jsStr t.host ++ ":" ++ t.path
  else t.path

/-- ScpProvider.buildScpArgs. -/
def buildScpArgs (source destination : TransferTarget)
    (options : UnifiedTransferOptions) : List String :=
  (if jsNotFalse options.recursive then ["-r"] else [])
  ++ (if jsNotFalse options.preserveTimes then ["-p"] else [])
  ++ (if jsTruthy options.compress then ["-C"] else [])
  ++ (if jsTruthy options.verbose then ["-v"] else [])
  ++ ["-q"]
  ++ (match options.keyFile with
      | some kf => if kf = "" then [] else ["-i", kf]
      | none => [])
  ++ (if jsTruthyNat source.port || jsTruthyNat destination.port then
        ["-P", toString (jsNatOr source.port (jsNatOr destination.port 22))] else [])
  ++ (if jsTruthyNat options.timeout then
        ["-o", "ConnectTimeout=" ++ toString (options.timeout.getD 0)] else [])
  ++ [scpTargetString source, scpTargetString destination]

/-- ScpProvider.transfer. -/
def scpTransfer (sys : SysOracle) (source destination : TransferTarget)
    (options : UnifiedTransferOptions) : TransferResult × List SpawnCall :=
  let args := buildScpArgs source destination options
  if jsTruthy options.dryRun then
    ({ success := true, exitCode := 0
       output := "Would execute: scp " ++ joinSp args
       duration := some sys.elapsed, method := "scp", fallbackUsed := true }, [])
  else
    match sys.exec "scp" args with
    | .error e => (catchResultCode "scp" e sys.elapsed, [("scp", args)])
    | .ok r =>
      ({ success := decide (r.exitCode = 0), exitCode := (r.exitCode : Int), output := r.output
         error := if r.exitCode = 0 then none else some r.error
         filesTransferred := some (sys.scpFilesCopied r.output)
         duration := some sys.elapsed, method := "scp", fallbackUsed := true }, [("scp", args)])

/-- The last path component used by TarProvider.buildTarCreateArgs
(source.path.split('/').pop() || '.'). -/
def tarLastComponent (p : String) : String :=
  let last := (p.splitOn "/").getLastD ""
  if last = "" then "." else last

/-- TarProvider.buildTarCreateArgs. -/
def buildTarCreateArgs (source : TransferTarget) (archivePath : String)
    (options : UnifiedTransferOptions) : List String :=
  (if jsTruthy options.compress then ["-czf"] else ["-cf"])
  ++ [archivePath]
  ++ (if jsNotFalse options.preservePerms then ["--preserve-permissions"] else [])
  ++ (if jsTruthy options.verbose then ["-v"] else [])
  ++ (if jsTruthy options.progress then ["--checkpoint=100", "--checkpoint-action=dot"] else [])
  ++ (match options.exclude with
      | some l => (l.map (fun pat => ["--exclude", pat])).flatten
      | none => [])
  ++ ["-C", dirname source.path, tarLastComponent source.path]

/-- TarProvider.buildTarExtractArgs. -/
def buildTarExtractArgs (archivePath : String) (destination : TransferTarget)
    (options : UnifiedTransferOptions) : List String :=
  (if archivePath.endsWith ".gz" then ["-xzf"] else ["-xf"])
  ++ [archivePath]
  ++ ["-C", destination.path]
  ++ (if jsTruthy options.verbose then ["-v"] else [])

/-- TarProvider.transfer: create an archive next to the destination, then
extract it when the destination is a directory (cleaning up the temporary
archive), otherwise keep the archive as the result. -/
def tarTransfer (sys : SysOracle) (source destination : TransferTarget)
    (options : UnifiedTransferOptions) : TransferResult × List SpawnCall :=
  let archivePath := destination.path ++ ".tar" ++ (if jsTruthy options.compress then ".gz" else "")
  if jsTruthy options.dryRun then
    ({ success := true, exitCode := 0
       output := "Would create archive: " ++ archivePath ++ " from " ++ source.path
       duration := some sys.elapsed, method := "tar", fallbackUsed := true }, [])
  else
    let createArgs := buildTarCreateArgs source archivePath options
    match sys.exec "tar" createArgs with
    | .error e => (catchResultCode "tar" e sys.elapsed, [("tar", createArgs)])
    | .ok createResult =>
      if createResult.exitCode ≠ 0 then
        ({ success := false, exitCode := (createResult.exitCode : Int)
           output := createResult.output, error := some createResult.error
           duration := some sys.elapsed, method := "tar", fallbackUsed := true },
         [("tar", createArgs)])
      else
        match sys.statIsDir destination.path with
        | .error e => (catchResultCode "tar" e sys.elapsed, [("tar", createArgs)])
        | .ok isDir =>
          if isDir then
            let extractArgs := buildTarExtractArgs archivePath destination options
            match sys.exec "tar" extractArgs with
            | .error e =>
              (catchResultCode "tar" e sys.elapsed, [("tar", createArgs), ("tar", extractArgs)])
            | .ok extractResult =>
              -- execSync(rm "archive") between extract and return; its
              -- result is ignored (cleanup errors swallowed)
              ({ success := decide (extractResult.exitCode = 0)
                 exitCode := (extractResult.exitCode : Int)
                 output := createResult.output ++ "\n" ++ extractResult.output
                 error := if extractResult.exitCode = 0 then none else some extractResult.error
                 filesTransferred := some (sys.countFiles destination.path)
                 duration := some sys.elapsed, method := "tar", fallbackUsed := true },
               [("tar", createArgs), ("tar", extractArgs),
                ("rm \"" ++ archivePath ++ "\"", [])])
          else
            ({ success := true, exitCode := 0, output := createResult.output
               filesTransferred := some 1
               duration := some sys.elapsed, method := "tar", fallbackUsed := true },
             [("tar", createArgs)])

/-! ### Rsync wrapper and manager (demo-fix.js first manager copy and
src/src/rsync/lib/rsync.ts)

The first manager copy's RsyncWrapperProvider.transfer delegates to
RsyncManager.transfer, which spawns the external rsync binary itself —
also under dryRun, where it merely appends the tool's own --dry-run flag.
The wrapper holds a freshly constructed (uninitialised) RsyncManager, so
each transfer first runs initialize() against the compatibility probe. -/

/-- RsyncManager.parseDestination: the regex
(user@)?host:path with a non-empty host part before the first colon and a
non-empty path after it; a user group needs a non-empty user before the
first at-sign and a non-empty remainder after it (otherwise the optional
group backtracks away and the whole prefix is the host). -/
def parseDestination (destination : String) : TransferTarget :=
  match splitFirst ':' destination.toList with
  | none => { path := destination, isRemote := false }
  | some (pre, post) =>
    if pre.isEmpty || post.isEmpty then { path := destination, isRemote := false }
    else
      match splitFirst '@' pre with
      | none =>
        { path := String.mk post, host := some (String.mk pre), isRemote := true }
      | some (u, h) =>
        if u.isEmpty || h.isEmpty then
          { path := String.mk post, host := some (String.mk pre), isRemote := true }
        else
          { path := String.mk post, host := some (String.mk h)
            user := some (String.mk u), isRemote := true }

/-- RsyncManager.buildDestinationString.  The source's non-standard-port
conditional returns the same string in both branches, so the port is not
consulted here. -/
def buildDestinationString (target : TransferTarget) (options : RsyncOptions) : String :=
  if !target.isRemote then target.path
  else
    let user := jsStrOr target.user (jsStrOr options.sshUser "")
    let userPrefix := if user = "" then "" else user ++ "@"
    userPrefix ++ jsStr target.host ++ ":" ++ target.path

/-- RsyncManager.buildSSHArgs.  The source pushes ['-e', ssh-string] for a
key and then mutates sshArgs[1] in place for port/options/timeout.  When
sshKey is unset but a later branch fires, the JS code writes index 1 of an
empty array, leaving a hole (JS undefined) at index 0, rendered here as
the string "undefined"; the wrapper provider never sets any SSH field, so
that corner is unreachable from the code under claim. -/
def buildSSHArgs (options : RsyncOptions) : List String :=
  let withKey := jsTruthyStr options.sshKey
  let s1 : Option String :=
    if withKey then some ("ssh -i \"" ++ options.sshKey.getD "" ++ "\"") else none
  let s1 :=
    if jsTruthyNat options.sshPort && (options.sshPort.getD 0) != 22 then
      some ((s1.getD "ssh") ++ " -p " ++ toString (options.sshPort.getD 0))
    else s1
  let s1 :=
    match options.sshOptions with
    | some opts => some ((s1.getD "ssh") ++ " " ++ String.intercalate " " opts)
    | none => s1
  let s1 :=
    if jsTruthyNat options.timeout then
      some ((s1.getD "ssh") ++ " -o ConnectTimeout=" ++ toString (options.timeout.getD 0))
    else s1
  match s1 with
  | none => []
  | some v => (if withKey then ["-e"] else ["undefined"]) ++ [v]

/-- RsyncManager.buildCommand: the optional command prefix (e.g. wsl),
the rsync binary, then the flag blocks. -/
def buildCommand (compat : Option RsyncCompatibilityResult)
    (source destination : String) (options : RsyncOptions) : List String :=
  (match compat with
   | some c =>
     (match c.commandPrefix with
      | some p => if p = "" then [] else [p]
      | none => [])
   | none => [])
  ++ ["rsync"]
  ++ (if jsNotFalse options.archive then ["-a"]
      else
        (if jsNotFalse options.recursive then ["-r"] else [])
        ++ (if jsNotFalse options.preserveLinks then ["-l"] else [])
        ++ (if jsNotFalse options.preservePerms then ["-p"] else [])
        ++ (if jsNotFalse options.preserveTimes then ["-t"] else []))
  ++ (if jsTruthy options.verbose then ["-v"] else [])
  ++ (if jsTruthy options.compress then ["-z"] else [])
  ++ (if jsTruthy options.progress then ["--progress"] else [])
  ++ (if jsTruthy options.delete then ["--delete"] else [])
  ++ (if jsTruthy options.dryRun then ["--dry-run"] else [])
  ++ (if jsTruthy options.checksum then ["-c"] else [])
  ++ (if jsTruthyNat options.bandwidth then
        ["--bwlimit", toString (options.bandwidth.getD 0)] else [])
  ++ (match options.exclude with
      | some l => (l.map (fun pat => ["--exclude", pat])).flatten
      | none => [])
  ++ (match options.includePatterns with
      | some l => (l.map (fun pat => ["--include", pat])).flatten
      | none => [])
  ++ options.customArgs.getD []
  ++ [source, destination]

/-- RsyncManager.sync: throws when not ready, otherwise spawns the built
command (also under dryRun) and normalizes the outcome.  The spawn error
event is resolved, not rethrown: it yields exit code -1 with the error
message; a close event yields success iff exit code 0, with the empty
stderr collapsed to no error text. -/
def rsyncManagerSync (sys : SysOracle) (ready : Bool)
    (compat : Option RsyncCompatibilityResult)
    (source destination : String) (options : RsyncOptions) :
    Except JsError (RsyncTransferResult × List SpawnCall) :=
  if !ready then
    .error { message := "RsyncManager not initialized or rsync not available" }
  else
    let command := buildCommand compat source destination options
    let cmd0 := command.headD ""
    let rest := command.tail
    match sys.exec cmd0 rest with
    | .ok r =>
      let stats := sys.rsyncStats r.output
      .ok ({ success := decide (r.exitCode = 0), exitCode := (r.exitCode : Int)
             output := r.output
             error := if r.error = "" then none else some r.error
             bytesTransferred := stats.1, filesTransferred := stats.2
             duration := some sys.elapsed }, [(cmd0, rest)])
    | .error e =>
      .ok ({ success := false, exitCode := -1, output := ""
             error := some e.message, duration := some sys.elapsed }, [(cmd0, rest)])

/-- RsyncManager.transfer: throws when not ready, parses the destination
string, defaults remote transfers to compression, appends SSH arguments
when any SSH field is set (arrays are truthy even when empty), and
delegates to sync. -/
def rsyncManagerTransfer (sys : SysOracle) (ready : Bool)
    (compat : Option RsyncCompatibilityResult)
    (source destStr : String) (options : RsyncOptions) :
    Except JsError (RsyncTransferResult × List SpawnCall) :=
  if !ready then
    .error { message := "RsyncManager not initialized or rsync not available" }
  else
    let dest := parseDestination destStr
    let destStr2 := buildDestinationString dest options
    let transferOptions :=
      if dest.isRemote then
        let o := { options with compress := some (jsNotFalse options.compress) }
        if jsTruthyStr options.sshKey || jsTruthyNat options.sshPort
            || options.sshOptions.isSome then
          { o with customArgs := some (o.customArgs.getD [] ++ buildSSHArgs options) }
        else o
      else options
    rsyncManagerSync sys ready compat source destStr2 transferOptions

/-- RsyncWrapperProvider.buildTargetString (demo-fix.js first copy): the
user@host:path rendering; the non-standard-port branch is an empty stub
in the source. -/
def buildTargetString (target : TransferTarget) : String :=
  if target.isRemote then
    (match target.user with
     | some u => if u = "" then "" else u ++ "@"
     | none => "")
    ++ jsStr target.host ++ ":" ++ target.path
  else target.path

/-- The RsyncOptions object literal built inside
RsyncWrapperProvider.transfer (demo-fix.js first copy).  Note
progress: options.progress || true is always true. -/
def toRsyncOptions (options : UnifiedTransferOptions) : RsyncOptions :=
  { archive := some true
    verbose := some (jsTruthy options.verbose)
    compress := some (jsTruthy options.compress)
    delete := some (jsTruthy options.delete)
    dryRun := some (jsTruthy options.dryRun)
    progress := some (jsTruthy options.progress || true)
    preserveLinks := some (jsNotFalse options.preserveLinks)
    preservePerms := some (jsNotFalse options.preservePerms)
    preserveTimes := some (jsNotFalse options.preserveTimes)
    exclude := options.exclude
    includePatterns := options.includePatterns
    customArgs := options.customArgs }

/-- RsyncWrapperProvider.transfer (demo-fix.js first copy): a freshly
constructed manager is initialised against the compatibility probe
(initialize swallows probe exceptions and leaves the manager
uninitialised), then RsyncManager.transfer runs; its result is wrapped as
a TransferResult with method rsync and fallbackUsed false, and any
exception it throws (notably the not-ready throw when the tool is
missing at execution time) is caught into a failure result with the
hard-coded exit code 1. -/
def rsyncWrapperTransfer (sys : SysOracle) (source destination : TransferTarget)
    (options : UnifiedTransferOptions) : TransferResult × List SpawnCall :=
  let initState : Bool × Option RsyncCompatibilityResult :=
    match sys.rsyncCompat with
    | .ok c => (true, some c)
    | .error _ => (false, none)
  let ready := initState.1 &&
    (match initState.2 with
     | some c => c.isAvailable
     | none => false)
  let rsyncOptions := toRsyncOptions options
  let sourceStr := buildTargetString source
  let destStr := buildTargetString destination
  match rsyncManagerTransfer sys ready initState.2 sourceStr destStr rsyncOptions with
  | .ok (result, trace) =>
    ({ success := result.success, exitCode := result.exitCode, output := result.output
       error := result.error, method := "rsync", fallbackUsed := false
       bytesTransferred := result.bytesTransferred
       filesTransferred := result.filesTransferred
       duration := result.duration }, trace)
  | .error e =>
    ({ success := false, exitCode := 1, output := ""
       error := some e.message, method := "rsync", fallbackUsed := false }, [])

/-- The provider transfer dispatch.  The rsync case is the first manager
copy's RsyncWrapperProvider delegating to RsyncManager (rsync.ts). -/
def fallbackTransfer (sys : SysOracle) :
    ProviderName → TransferTarget → TransferTarget → UnifiedTransferOptions →
    TransferResult × List SpawnCall
  | .robocopy => robocopyTransfer sys
  | .xcopy => xcopyTransfer sys
  | .ditto => dittoTransfer sys
  | .macCp => macCpTransfer sys
  | .cp => cpTransfer sys
  | .tar => tarTransfer sys
  | .scp => scpTransfer sys
  | .rsync => rsyncWrapperTransfer sys

/-- The seven native fallback provider classes. -/
def fallbackProviderNames : List ProviderName :=
  [.robocopy, .xcopy, .ditto, .macCp, .cp, .tar, .scp]

/-- The argument list each provider's dry-run message reports (robocopy's
builder can throw; tar and the rsync wrapper build no single command and
are not covered by this dispatch). -/
def dryRunArgs : ProviderName → TransferTarget → TransferTarget → UnifiedTransferOptions →
    Except String (List String)
  | .robocopy => buildRobocopyArgs
  | .xcopy => fun s d o => .ok (buildXCopyArgs s d o)
  | .ditto => fun s d o => .ok (buildDittoArgs s d o)
  | .macCp => fun s d o => .ok (buildMacCpArgs s d o)
  | .cp => fun s d o => .ok (buildCpArgs s d o)
  | .scp => fun s d o => .ok (buildScpArgs s d o)
  | .tar => fun _ _ _ => .ok []
  | .rsync => fun _ _ _ => .ok []

/-- A target satisfying the spec data-model invariant remote == (host is
set): a remote target has a non-empty host.  buildUncPath never throws on
such targets. -/
def wfTarget (t : TransferTarget) : Bool :=
  !t.isRemote ||
    (match t.host with
     | some h => h != ""
     | none => false)

/-! ## Clipboard (FileOperationsManager, advanced-utils.ts) -/

/-- The CopyOperation clipboard record (the timestamp and file metadata
fields, wall-clock and filesystem data, are not read by the embedded
logic). -/
inductive CopyType
  | copy
  | cut
deriving DecidableEq, Repr

/-- CopyOperation (advanced-utils.ts). -/
structure CopyOperation where
  id : String
  type : CopyType
  source : TransferTarget
  files : List String
deriving DecidableEq, Repr

/-- The static clipboard cell and operation counter of
FileOperationsManager. -/
structure ClipboardState where
  clipboard : Option CopyOperation := none
  operationCounter : Nat := 0
deriving DecidableEq, Repr

/-- FileOperationsManager.copyFiles: replaces the clipboard outright.
now is the Date.now() timestamp mixed into the id. -/
def copyFiles (st : ClipboardState) (source : TransferTarget)
    (filePaths : List String) (now : Nat) : CopyOperation × ClipboardState :=
  let n := st.operationCounter + 1
  let op : CopyOperation :=
    { id := "copy_" ++ toString n ++ "_" ++ toString now
      type := .copy, source := source, files := filePaths }
  (op, { clipboard := some op, operationCounter := n })

/-- FileOperationsManager.cutFiles: replaces the clipboard outright. -/
def cutFiles (st : ClipboardState) (source : TransferTarget)
    (filePaths : List String) (now : Nat) : CopyOperation × ClipboardState :=
  let n := st.operationCounter + 1
  let op : CopyOperation :=
    { id := "cut_" ++ toString n ++ "_" ++ toString now
      type := .cut, source := source, files := filePaths }
  (op, { clipboard := some op, operationCounter := n })

/-- FileOperationsManager.clearClipboard. -/
def clearClipboard (st : ClipboardState) : ClipboardState :=
  { st with clipboard := none }

/-- path.join(a, b) as used on clipboard entries (normalisation of dots is
not modelled; no clipboard claim depends on it). -/
def joinPath (a b : String) : String :=
  if a = "" then b else a ++ "/" ++ b

/-- The full paths FileOperationsManager.deleteSourceFiles removes (rm -rf
over ssh for remote sources, fs.rm locally; per-file failures are caught
and logged, so the attempts are what is observable). -/
def deleteSourcePaths (op : CopyOperation) : List String :=
  op.files.map (fun f => joinPath op.source.path f)

/-- Observable outcome of FileOperationsManager.pasteFiles: the returned
or thrown result, the source paths handed to deleteSourceFiles, whether
createUnifiedTransferManager was reached, and the clipboard afterwards
(pasteFiles never writes the clipboard). -/
structure PasteOutcome where
  result : Except String TransferResult
  deletedSources : List String
  managerCreated : Bool
  finalClipboard : Option CopyOperation
deriving Repr

/-- FileOperationsManager.pasteFiles.  runTransfer stands for
manager.transfer(clipboard.source, destination, include: clipboard.files),
which may throw (modelled as Except.error). -/
def pasteFiles (st : ClipboardState) (destination : TransferTarget)
    (runTransfer : TransferTarget → TransferTarget → List String → Except String TransferResult) :
    PasteOutcome :=
  match st.clipboard with
  | none =>
    { result := .error "No files in clipboard", deletedSources := []
      managerCreated := false, finalClipboard := none }
  | some clip =>
    match runTransfer clip.source destination clip.files with
    | .error e =>
      { result := .error e, deletedSources := []
        managerCreated := true, finalClipboard := some clip }
    | .ok r =>
      { result := .ok r
        deletedSources :=
          if clip.type = CopyType.cut ∧ r.success = true then deleteSourcePaths clip else []
        managerCreated := true, finalClipboard := some clip }

/-! ## Concrete fixtures used by witnesses and counterexamples -/

/-- A filesystem on which every path exists. -/
def allFs : FsExists := fun _ => true

/-- A local source target. -/
def srcLocal : TransferTarget := { path := "/tmp/data" }

/-- A local destination target. -/
def dstLocal : TransferTarget := { path := "/tmp/out" }

/-- A remote destination target (host set). -/
def dstRemote : TransferTarget := { path := "/srv/out", host := some "nas", isRemote := true }

/-- An oracle whose subprocesses all succeed with empty output. -/
def trivialSys : SysOracle :=
  { exec := fun _ _ => .ok { exitCode := 0, output := "", error := "" }
    statIsDir := fun _ => .ok true
    countFiles := fun _ => 0
    robocopyStats := fun _ => (0, 0)
    xcopyFilesCopied := fun _ => 0
    scpFilesCopied := fun _ => 0
    rateFmt := fun _ _ => "0 B/s"
    rsyncCompat := .ok { isAvailable := true }
    rsyncStats := fun _ => (none, none)
    elapsed := 0 }

/-- Character-list test: does s start with pat? -/
def startsWithChars : List Char → List Char → Bool
  | _, [] => true
  | [], _ :: _ => false
  | c :: cs, p :: ps => c == p && startsWithChars cs ps

/-- Character-list substring occurrence test. -/
def containsChars : List Char → List Char → Bool
  | [], pat => pat.isEmpty
  | c :: cs, pat => startsWithChars (c :: cs) pat || containsChars cs pat

/-- Substring occurrence test used to state the dry-run counterexample. -/
def strContains (s pat : String) : Bool :=
  containsChars s.toList pat.toList

/-- A cut operation sitting in the clipboard. -/
def clipCutFixture : CopyOperation :=
  { id := "cut_1_0", type := .cut, source := srcLocal, files := ["a.txt"] }

/-- A clipboard state holding the cut operation. -/
def clipStateFixture : ClipboardState :=
  { clipboard := some clipCutFixture, operationCounter := 1 }

/-- A successful transfer result. -/
def okTransferResult : TransferResult :=
  { success := true, exitCode := 0, output := "ok", method := "rsync", fallbackUsed := false }

/-- A transfer path that always succeeds. -/
def okRunTransfer : TransferTarget → TransferTarget → List String → Except String TransferResult :=
  fun _ _ _ => .ok okTransferResult

/-- The clipboard state at manager start: empty. -/
def emptyClipState : ClipboardState := {}

end FastTransfer

namespace FastTransfer

/-! ## Ranking lemmas -/

theorem mem_insertScoredDesc {a x : Scored} {l : List Scored} :
    a ∈ insertScoredDesc x l ↔ a = x ∨ a ∈ l := by
  induction l with
  | nil => simp [insertScoredDesc]
  | cons y ys ih =>
    simp only [insertScoredDesc]
    split
    · simp [List.mem_cons]
    · simp only [List.mem_cons, ih]
      tauto

theorem mem_sortScoredDesc {a : Scored} {l : List Scored} :
    a ∈ sortScoredDesc l ↔ a ∈ l := by
  induction l with
  | nil => simp [sortScoredDesc]
  | cons x xs ih =>
    simp only [sortScoredDesc, mem_insertScoredDesc, ih, List.mem_cons]

theorem insertScoredDesc_ne_nil (x : Scored) (l : List Scored) :
    insertScoredDesc x l ≠ [] := by
  cases l with
  | nil => simp [insertScoredDesc]
  | cons y ys =>
    simp only [insertScoredDesc]
    split <;> simp

theorem sortScoredDesc_eq_nil_iff {l : List Scored} :
    sortScoredDesc l = [] ↔ l = [] := by
  cases l with
  | nil => simp [sortScoredDesc]
  | cons x xs =>
    simp only [sortScoredDesc]
    exact ⟨fun h => absurd h (insertScoredDesc_ne_nil _ _), fun h => by cases h⟩

theorem pairwise_insertScoredDesc {x : Scored} {l : List Scored}
    (h : l.Pairwise (fun a b : Scored => b.2 ≤ a.2)) :
    (insertScoredDesc x l).Pairwise (fun a b : Scored => b.2 ≤ a.2) := by
  induction l with
  | nil => simp [insertScoredDesc]
  | cons y ys ih =>
    rcases List.pairwise_cons.mp h with ⟨hy, hys⟩
    simp only [insertScoredDesc]
    split
    · rename_i hle
      refine List.pairwise_cons.mpr ⟨?_, h⟩
      intro b hb
      rcases List.mem_cons.mp hb with rfl | hb
      · exact hle
      · exact le_trans (hy b hb) hle
    · rename_i hgt
      refine List.pairwise_cons.mpr ⟨?_, ih hys⟩
      intro b hb
      rcases mem_insertScoredDesc.mp hb with rfl | hb
      · exact le_of_not_le hgt
      · exact hy b hb

theorem pairwise_sortScoredDesc (l : List Scored) :
    (sortScoredDesc l).Pairwise (fun a b : Scored => b.2 ≤ a.2) := by
  induction l with
  | nil => simp [sortScoredDesc]
  | cons x xs ih => exact pairwise_insertScoredDesc ih

theorem find?_congr {α : Type} {p q : α → Bool} :
    ∀ {l : List α}, (∀ a ∈ l, p a = q a) → l.find? p = l.find? q
  | [], _ => rfl
  | x :: xs, h => by
    have hx := h x (List.mem_cons_self x xs)
    simp only [List.find?]
    rw [hx]
    cases q x
    · exact find?_congr (fun a ha => h a (List.mem_cons_of_mem x ha))
    · rfl

/-- Head of the stable descending sort is the first candidate, in
declaration order, whose score is maximal. -/
theorem head_sortScoredDesc (l : List Scored) :
    (sortScoredDesc l).head? =
      l.find? (fun x => l.all (fun y => decide (y.2 ≤ x.2))) := by
  induction l with
  | nil => rfl
  | cons x xs ih =>
    simp only [sortScoredDesc]
    cases hs : sortScoredDesc xs with
    | nil =>
      have hxs : xs = [] := sortScoredDesc_eq_nil_iff.mp hs
      subst hxs
      simp [insertScoredDesc, List.find?, List.all_cons]
    | cons h t =>
      have hmem : h ∈ xs := mem_sortScoredDesc.mp (hs ▸ List.mem_cons_self h t)
      have hmax : ∀ y ∈ xs, y.2 ≤ h.2 := by
        intro y hy
        have hy2 : y ∈ sortScoredDesc xs := mem_sortScoredDesc.mpr hy
        rw [hs] at hy2
        rcases List.mem_cons.mp hy2 with rfl | hy2
        · exact le_refl _
        · have hp := pairwise_sortScoredDesc xs
          rw [hs] at hp
          exact (List.pairwise_cons.mp hp).1 y hy2
      simp only [insertScoredDesc]
      split
      · rename_i hle
        have hall : (x :: xs).all (fun y => decide (y.2 ≤ x.2)) = true := by
          simp only [List.all_eq_true, decide_eq_true_eq]
          intro y hy
          rcases List.mem_cons.mp hy with rfl | hy
          · exact le_refl _
          · exact le_trans (hmax y hy) hle
        simp [List.find?, hall]
      · rename_i hgt
        have hxfalse : (x :: xs).all (fun y => decide (y.2 ≤ x.2)) = false := by
          simp only [List.all_eq_false, decide_eq_true_eq]
          exact ⟨h, List.mem_cons_of_mem x hmem, hgt⟩
        have hcong : ∀ a ∈ xs,
            ((x :: xs).all (fun y => decide (y.2 ≤ a.2)))
              = (xs.all (fun y => decide (y.2 ≤ a.2))) := by
          intro a _
          cases hq : xs.all (fun y => decide (y.2 ≤ a.2)) with
          | false =>
            simp only [List.all_eq_false] at hq ⊢
            rcases hq with ⟨y, hy, hny⟩
            exact ⟨y, List.mem_cons_of_mem x hy, hny⟩
          | true =>
            simp only [List.all_eq_true, decide_eq_true_eq] at hq ⊢
            intro y hy
            rcases List.mem_cons.mp hy with rfl | hy
            · have hha : h.2 ≤ a.2 := hq h hmem
              exact le_trans (le_of_not_le hgt) hha
            · exact hq y hy
        have : (x :: xs).find? (fun a => (x :: xs).all (fun y => decide (y.2 ≤ a.2)))
            = xs.find? (fun a => (x :: xs).all (fun y => decide (y.2 ≤ a.2))) := by
          simp [List.find?, hxfalse]
        rw [this]
        rw [find?_congr hcong]
        rw [← ih]
        rw [hs]
        simp

/-- C5: for all (strategy, option-set, candidate-set) inputs the fallback
selection is a pure function, so two runs on identical inputs agree; the
ranked order is the stable descending sort, whose first element is the
first candidate in declaration order attaining the maximal score, and a
two-way tie is resolved for the earlier-declared candidate. -/
theorem scoring_deterministic_and_stable_tiebreak :
    (∀ (fs : FsExists) (st : ManagerState) (source destination : TransferTarget)
        (options : UnifiedTransferOptions),
      selectFallbackProvider fs st source destination options =
        selectFallbackProvider fs st source destination options)
    ∧ (∀ l : List Scored,
        (sortScoredDesc l).head? =
          l.find? (fun x => l.all (fun y => decide (y.2 ≤ x.2))))
    ∧ (∀ (p q : ProviderName) (sc : Int),
        (sortScoredDesc [(p, sc), (q, sc)]).head? = some (p, sc)) := by
  refine ⟨fun _ _ _ _ _ => rfl, head_sortScoredDesc, ?_⟩
  intro p q sc
  simp [sortScoredDesc, insertScoredDesc]

/-! ## Selection lemmas -/

theorem mem_suitableProviders {fs : FsExists} {st : ManagerState}
    {source destination : TransferTarget} {options : UnifiedTransferOptions}
    {a : ProviderName} {s : Int} :
    (a, s) ∈ suitableProviders fs st source destination options ↔
      a ∈ st.availableProviders
      ∧ ((source.isRemote || destination.isRemote)
          && !(capabilitiesOf a).supportsNetworkTransfer
          && !(jsTruthy options.allowNetworkFallback)) = false
      ∧ (validateTargets fs a source destination).valid = true
      ∧ s = calculateProviderScore a (options.strategy.getD .mostCompatible) options
            (source.isRemote || destination.isRemote) := by
  unfold suitableProviders
  simp only [List.mem_filterMap]
  constructor
  · rintro ⟨b, hb, hfb⟩
    split at hfb
    · exact absurd hfb (by simp)
    · split at hfb
      · exact absurd hfb (by simp)
      · rename_i hcond hval
        rcases Option.some.inj hfb with h
        rcases Prod.mk.injEq .. ▸ h with ⟨rfl, rfl⟩
        refine ⟨hb, by simpa using hcond, by simpa using hval, rfl⟩
  · rintro ⟨ha, h1, h2, rfl⟩
    refine ⟨a, ha, ?_⟩
    rw [if_neg (by simp [h1]), if_neg (by simp [h2])]

/-- C3: on a cross-host transfer with network fallback disallowed, every
candidate lacking network-transfer capability is excluded from the
suitable set; and an empty suitable set makes selectFallbackProvider fail
with the no-suitable-provider error (an Except.error, a thrown selection
failure distinct from any TransferResult, produced without consulting any
execution oracle). -/
theorem network_filter_and_fatal_no_provider :
    ∀ (fs : FsExists) (st : ManagerState) (source destination : TransferTarget)
      (options : UnifiedTransferOptions),
      ((source.isRemote || destination.isRemote) = true →
        jsTruthy options.allowNetworkFallback = false →
        ∀ (p : ProviderName) (sc : Int),
          (capabilitiesOf p).supportsNetworkTransfer = false →
          (p, sc) ∉ suitableProviders fs st source destination options)
      ∧ (suitableProviders fs st source destination options = [] →
          selectFallbackProvider fs st source destination options =
            .error "No suitable transfer providers available for the given targets and options") := by
  intro fs st source destination options
  constructor
  · intro hnet hallow p sc hcap hmem
    rcases mem_suitableProviders.mp hmem with ⟨_, hfilter, _, _⟩
    rw [hnet, hcap, hallow] at hfilter
    simp at hfilter
  · intro h
    unfold selectFallbackProvider
    rw [h]
    rfl

/-- jsNotFalse is true exactly when the field is not an explicit false. -/
theorem jsNotFalse_true_of_ne {o : Option Bool} (h : o ≠ some false) :
    jsNotFalse o = true := by
  cases o with
  | none => rfl
  | some b =>
    cases b
    · exact absurd rfl h
    · rfl

/-- C1: with rsync available and the preference not disabled (preferRsync
not explicitly false, forceNative not truthy, no valid preferredMethod
hit), selectTransferMethod returns the rsync provider with
fallbackUsed = false and the primary-tool justification; in particular
this covers strategy most-compatible with both targets local, since this
branch ignores strategy and targets. -/
theorem rsync_preferred_selected :
    ∀ (fs : FsExists) (st : ManagerState) (source destination : TransferTarget)
      (options : UnifiedTransferOptions),
      st.rsyncAvailable = true →
      options.preferRsync ≠ some false →
      jsTruthy options.forceNative = false →
      preferredMethodHit fs st source destination options = none →
      selectTransferMethod fs st source destination options =
        .ok { provider := .rsync, reason := "Rsync is available and preferred"
              rsyncAvailable := true, fallbackUsed := false } := by
  intro fs st source destination options hrs hpr hfn hhit
  unfold selectTransferMethod
  rw [hfn, hhit, hrs, jsNotFalse_true_of_ne hpr]
  rfl

theorem preferredMethodHit_eq_none_of_unavailable {fs : FsExists} {st : ManagerState}
    {source destination : TransferTarget} {options : UnifiedTransferOptions} {m : String}
    (hm : options.preferredMethod = some m) (hl : lookupProvider st m = none) :
    preferredMethodHit fs st source destination options = none := by
  unfold preferredMethodHit
  rw [hm]
  by_cases he : m = ""
  · simp [he]
  · simp [he, hl]

/-- The justification strings reachable when no preferred-method hit
occurred. -/
theorem selectTransferMethod_reasons {fs : FsExists} {st : ManagerState}
    {source destination : TransferTarget} {options : UnifiedTransferOptions}
    (h : preferredMethodHit fs st source destination options = none) :
    ∀ r, selectTransferMethod fs st source destination options = .ok r →
      r.reason = "Native tools forced by user"
      ∨ r.reason = "Rsync is available and preferred"
      ∨ r.reason = "Fallback method preferred"
      ∨ r.reason = "Rsync not available" := by
  intro r hr
  unfold selectTransferMethod at hr
  by_cases hfn : jsTruthy options.forceNative = true
  · rw [if_pos hfn] at hr
    cases hsel : selectFallbackProvider fs st source destination options with
    | error e => rw [hsel] at hr; simp [Except.map] at hr
    | ok p =>
      rw [hsel] at hr
      simp only [Except.map, Except.ok.injEq] at hr
      rw [← hr]
      left; rfl
  · rw [if_neg hfn, h] at hr
    by_cases hrp : (st.rsyncAvailable && jsNotFalse options.preferRsync) = true
    · rw [if_pos hrp] at hr
      simp only [Except.ok.injEq] at hr
      rw [← hr]
      right; left; rfl
    · rw [if_neg hrp] at hr
      cases hsel : selectFallbackProvider fs st source destination options with
      | error e => rw [hsel] at hr; simp [Except.map] at hr
      | ok p =>
        rw [hsel] at hr
        simp only [Except.map, Except.ok.injEq] at hr
        rw [← hr]
        cases hra : st.rsyncAvailable
        · right; right; right; simp [hra]
        · right; right; left; simp [hra]

/-- A string whose first character is not the first character of t cannot
be t followed by anything. -/
theorem ne_append_of_head_ne {s t : String} (m : String)
    (hts : s.data.head? ≠ t.data.head?) (ht : t.data ≠ []) : s ≠ t ++ m := by
  intro he
  apply hts
  rw [he]
  show (t ++ m).data.head? = t.data.head?
  have : (t ++ m).data = t.data ++ m.data := rfl
  rw [this]
  cases hcs : t.data with
  | nil => exact absurd hcs ht
  | cons c cs => rfl

/-- C2: an unavailable preferredMethod is not selected: selection behaves
exactly as if no preferred method had been named, so it falls through to
the primary-rsync preference and scored fallback selection, and the result
never carries the explicit-preference justification. -/
theorem unavailable_preferred_method_falls_through :
    ∀ (fs : FsExists) (st : ManagerState) (source destination : TransferTarget)
      (options : UnifiedTransferOptions) (m : String),
      options.preferredMethod = some m →
      lookupProvider st m = none →
      (selectTransferMethod fs st source destination options =
        selectTransferMethod fs st source destination { options with preferredMethod := none })
      ∧ (∀ r, selectTransferMethod fs st source destination options = .ok r →
          r.reason ≠ "User preferred method: " ++ m) := by
  intro fs st source destination options m hm hl
  have hhit := @preferredMethodHit_eq_none_of_unavailable fs st source destination options m hm hl
  have h2 : preferredMethodHit fs st source destination
      { options with preferredMethod := none } = none := rfl
  constructor
  · simp only [selectTransferMethod, hhit, h2]
    rfl
  · intro r hr
    rcases selectTransferMethod_reasons hhit r hr with h | h | h | h <;> rw [h] <;>
      exact ne_append_of_head_ne m (by decide) (by decide)

/-! ## Permission-penalty lemmas (C4) -/

theorem jsTruthy_some_false : jsTruthy (some false) = false := rfl

/-- The only provider class without permission support is xcopy. -/
theorem perms_false_iff (p : ProviderName) :
    (capabilitiesOf p).supportsPermissions = false ↔ p = .xcopy := by
  cases p <;> simp [capabilitiesOf]

/-- On the Windows platform pair, whenever permissions are requested and
the base-strategy margin of xcopy over robocopy is below the 5-point
permission penalty, robocopy strictly outscores xcopy: robocopy's bonuses
dominate xcopy's and xcopy additionally pays the permission penalty. -/
theorem robocopy_beats_xcopy (strategy : Strategy) (options : UnifiedTransferOptions) (net : Bool)
    (hperm : jsTruthy options.preservePerms = true)
    (hmargin : strategyScore .xcopy strategy net - strategyScore .robocopy strategy net < 5) :
    calculateProviderScore .xcopy strategy options net
      < calculateProviderScore .robocopy strategy options net := by
  unfold calculateProviderScore optionBonus optionPenalty
  simp [capabilitiesOf, hperm]
  split_ifs <;> omega

/-- C4: the permission penalty.  First, a candidate lacking permission
support scores exactly 5 points less when preservePerms is requested than
when it is not.  Second, in any reachable manager state: if a scored
candidate lacks permission support, a permission-supporting candidate also
survives filtering, and the base strategy margin between them is below the
5-point penalty, the permission-supporting candidate is selected. -/
theorem permission_penalty_scoring_and_selection :
    (∀ (p : ProviderName) (strategy : Strategy) (options : UnifiedTransferOptions) (net : Bool),
        jsTruthy options.preservePerms = true →
        (capabilitiesOf p).supportsPermissions = false →
        calculateProviderScore p strategy options net =
          calculateProviderScore p strategy { options with preservePerms := some false } net - 5)
    ∧ (∀ (platform : OsKind) (avail : ProviderName → Bool) (rAv : Bool) (fs : FsExists)
        (source destination : TransferTarget) (options : UnifiedTransferOptions)
        (p q : ProviderName) (sp sq : Int),
        (p, sp) ∈ suitableProviders fs ⟨rAv, availableProvidersOf platform avail⟩
          source destination options →
        (q, sq) ∈ suitableProviders fs ⟨rAv, availableProvidersOf platform avail⟩
          source destination options →
        (capabilitiesOf p).supportsPermissions = false →
        (capabilitiesOf q).supportsPermissions = true →
        jsTruthy options.preservePerms = true →
        strategyScore p (options.strategy.getD .mostCompatible)
            (source.isRemote || destination.isRemote)
          - strategyScore q (options.strategy.getD .mostCompatible)
            (source.isRemote || destination.isRemote) < 5 →
        selectFallbackProvider fs ⟨rAv, availableProvidersOf platform avail⟩
          source destination options = .ok q) := by
  constructor
  · intro p strategy options net hperm hp
    unfold calculateProviderScore optionBonus optionPenalty
    simp [hp, hperm, jsTruthy_some_false]
    split_ifs <;> omega
  · intro platform avail rAv fs source destination options p q sp sq hpmem hqmem hp hq hperm hmargin
    have hpx : p = .xcopy := (perms_false_iff p).mp hp
    subst hpx
    rcases mem_suitableProviders.mp hpmem with ⟨hpav, hpfilter, hpvalid, hpscore⟩
    rcases mem_suitableProviders.mp hqmem with ⟨hqav, hqfilter, hqvalid, hqscore⟩
    have hxin : ProviderName.xcopy ∈ platformProviders platform :=
      List.mem_of_mem_filter hpav
    have hplat : platform = .win32 := by
      cases platform
      · rfl
      · simp [platformProviders] at hxin
      · simp [platformProviders] at hxin
      · simp [platformProviders] at hxin
    subst hplat
    have hqrb : q = .robocopy := by
      have hqin : q = ProviderName.robocopy ∨ q = ProviderName.xcopy := by
        simpa [platformProviders] using List.mem_of_mem_filter hqav
      rcases hqin with rfl | rfl
      · rfl
      · exact absurd hq (by simp [capabilitiesOf])
    subst hqrb
    have havr : avail .robocopy = true := List.of_mem_filter hqav
    have havx : avail .xcopy = true := List.of_mem_filter hpav
    have hlist : availableProvidersOf .win32 avail = [.robocopy, .xcopy] := by
      simp [availableProvidersOf, platformProviders, List.filter, havr, havx]
    have hsuit : suitableProviders fs ⟨rAv, availableProvidersOf .win32 avail⟩
        source destination options = [(.robocopy, sq), (.xcopy, sp)] := by
      unfold suitableProviders
      have hfield : (⟨rAv, availableProvidersOf .win32 avail⟩ : ManagerState).availableProviders
          = [ProviderName.robocopy, ProviderName.xcopy] := hlist
      rw [hfield]
      simp only [List.filterMap_cons, List.filterMap_nil]
      rw [if_neg (by simp [hqfilter]), if_neg (by simp [hqvalid]),
        if_neg (by simp [hpfilter]), if_neg (by simp [hpvalid]),
        ← hqscore, ← hpscore]
    have hlt : sp < sq := by
      rw [hpscore, hqscore]
      exact robocopy_beats_xcopy _ options _ hperm hmargin
    unfold selectFallbackProvider
    rw [hsuit]
    simp [sortScoredDesc, insertScoredDesc, le_of_lt hlt]

/-! ## Execution-layer lemmas (C6, C7, C8) -/

theorem buildUncPath_ok {t : TransferTarget} (hw : wfTarget t = true)
    (hr : t.isRemote = true) : ∃ s, buildUncPath t = .ok s := by
  unfold wfTarget at hw
  rw [hr] at hw
  simp only [Bool.not_true, Bool.false_or] at hw
  unfold buildUncPath
  cases hh : t.host with
  | none => simp [hh] at hw
  | some h =>
    rw [hh] at hw
    have hne : ¬(h = "") := by simpa using hw
    by_cases hsw : t.path.startsWith "\\\\"
    · exact ⟨t.path, by simp [hne, hsw]⟩
    · by_cases hsl : t.path.startsWith "/"
      · exact ⟨"\\\\" ++ h ++ t.path.replace "/" "\\", by simp [hne, hsw, hsl]⟩
      · exact ⟨"\\\\" ++ h ++ t.path, by simp [hne, hsw, hsl]⟩

theorem buildRobocopyArgs_ok {source destination : TransferTarget}
    (options : UnifiedTransferOptions)
    (hs : wfTarget source = true) (hd : wfTarget destination = true) :
    ∃ args, buildRobocopyArgs source destination options = .ok args := by
  have hsp : ∃ s1, (if source.isRemote then buildUncPath source else .ok source.path)
      = (Except.ok s1 : Except String String) := by
    cases hsrc : source.isRemote
    · refine ⟨source.path, ?_⟩
      rw [if_neg (by simp [hsrc])]
    · rcases buildUncPath_ok hs hsrc with ⟨s1, h1⟩
      exact ⟨s1, by simp [hsrc, h1]⟩
  have hdp : ∃ d1, (if destination.isRemote then buildUncPath destination else .ok destination.path)
      = (Except.ok d1 : Except String String) := by
    cases hdst : destination.isRemote
    · refine ⟨destination.path, ?_⟩
      rw [if_neg (by simp [hdst])]
    · rcases buildUncPath_ok hd hdst with ⟨d1, h1⟩
      exact ⟨d1, by simp [hdst, h1]⟩
  rcases hsp with ⟨s1, h1⟩
  rcases hdp with ⟨d1, h2⟩
  unfold buildRobocopyArgs
  rw [h1, h2]
  exact ⟨_, rfl⟩

theorem str_append_assoc (a b c : String) : a ++ b ++ c = a ++ (b ++ c) := by
  rcases a with ⟨la⟩
  rcases b with ⟨lb⟩
  rcases c with ⟨lc⟩
  show String.mk (la ++ lb ++ lc) = String.mk (la ++ (lb ++ lc))
  rw [List.append_assoc]

theorem headD_cons_tail {l : List String} (h : l ≠ []) : l.headD "" :: l.tail = l := by
  cases l with
  | nil => exact absurd rfl h
  | cons a t => rfl

theorem buildCommand_ne_nil (compat : Option RsyncCompatibilityResult)
    (source destination : String) (options : RsyncOptions) :
    buildCommand compat source destination options ≠ [] := by
  unfold buildCommand
  intro h
  simp at h

theorem mem_dryRun_buildCommand (compat : Option RsyncCompatibilityResult)
    (source destination : String) (options : RsyncOptions)
    (h : jsTruthy options.dryRun = true) :
    "--dry-run" ∈ buildCommand compat source destination options := by
  unfold buildCommand
  simp [h]

theorem rsyncManagerSync_spawn (sys : SysOracle)
    (compat : Option RsyncCompatibilityResult)
    (source destination : String) (options : RsyncOptions) :
    ∃ r, rsyncManagerSync sys true compat source destination options =
      .ok (r, [((buildCommand compat source destination options).headD "",
                (buildCommand compat source destination options).tail)]) := by
  unfold rsyncManagerSync
  rw [if_neg (by simp)]
  cases hex : sys.exec ((buildCommand compat source destination options).headD "")
      ((buildCommand compat source destination options).tail) with
  | ok r =>
    simp only [hex]
    exact ⟨_, rfl⟩
  | error e =>
    simp only [hex]
    exact ⟨_, rfl⟩

theorem rsyncManagerSync_dryRun_spawn (sys : SysOracle)
    (compat : Option RsyncCompatibilityResult)
    (source destination : String) (options : RsyncOptions)
    (hdry : jsTruthy options.dryRun = true) :
    ∃ r cmd args, rsyncManagerSync sys true compat source destination options =
        .ok (r, [(cmd, args)]) ∧ "--dry-run" ∈ cmd :: args := by
  obtain ⟨r, hr⟩ := rsyncManagerSync_spawn sys compat source destination options
  refine ⟨r, _, _, hr, ?_⟩
  rw [headD_cons_tail (buildCommand_ne_nil compat source destination options)]
  exact mem_dryRun_buildCommand compat source destination options hdry

theorem rsyncManagerTransfer_dryRun_spawn (sys : SysOracle)
    (compat : Option RsyncCompatibilityResult)
    (source destStr : String) (options : RsyncOptions)
    (hdry : jsTruthy options.dryRun = true)
    (hkey : options.sshKey = none) (hport : options.sshPort = none)
    (hopts : options.sshOptions = none) :
    ∃ r cmd args, rsyncManagerTransfer sys true compat source destStr options =
        .ok (r, [(cmd, args)]) ∧ "--dry-run" ∈ cmd :: args := by
  unfold rsyncManagerTransfer
  rw [if_neg (by simp)]
  simp only [hkey, hport, hopts, jsTruthyStr, jsTruthyNat, Option.isSome_none,
    Bool.or_self, Bool.or_false, Bool.false_or, Bool.false_eq_true, if_false]
  by_cases hrem : (parseDestination destStr).isRemote = true
  · rw [if_pos hrem]
    exact rsyncManagerSync_dryRun_spawn sys compat source _ _ hdry
  · rw [if_neg hrem]
    exact rsyncManagerSync_dryRun_spawn sys compat source _ _ hdry

/-- C6 counterexample: a tar dry run succeeds and spawns nothing, but its
output is a would-create-archive message that neither says would-execute
nor carries the built argument list; and an rsync dry run against an
available tool spawns the rsync subprocess itself (with --dry-run among
its arguments) instead of staying subprocess-free.  Both refute the claim
as stated. -/
theorem tar_dry_run_message_counterexample :
    (tarTransfer trivialSys srcLocal dstLocal { dryRun := some true }).1.success = true
    ∧ (tarTransfer trivialSys srcLocal dstLocal { dryRun := some true }).1.output
        = "Would create archive: /tmp/out.tar from /tmp/data"
    ∧ strContains
        (tarTransfer trivialSys srcLocal dstLocal { dryRun := some true }).1.output
        "Would execute" = false
    ∧ strContains
        (tarTransfer trivialSys srcLocal dstLocal { dryRun := some true }).1.output
        "-cf" = false
    ∧ (tarTransfer trivialSys srcLocal dstLocal { dryRun := some true }).2 = []
    ∧ (fallbackTransfer trivialSys .rsync srcLocal dstLocal { dryRun := some true }).2
        = [("rsync", ["-a", "--progress", "--dry-run", "/tmp/data", "/tmp/out"])] := by
  refine ⟨rfl, rfl, by decide, by decide, rfl, rfl⟩

/-- C6 amended: with dryRun set and well-formed targets, none of the seven
native fallback providers records a subprocess invocation and each returns
success; every native tool except tar reports the would-execute message
carrying its fully built argument list, while tar reports a
would-create-archive message naming the archive and source paths instead.
The rsync provider is the exception on both counts: whenever the manager's
compatibility probe reports the tool available, it spawns the rsync
subprocess itself, handing the dry run to rsync via a --dry-run argument,
and emits no would-execute message. -/
theorem dry_run_never_spawns_amended :
    ∀ (sys : SysOracle) (source destination : TransferTarget)
      (options : UnifiedTransferOptions),
      wfTarget source = true → wfTarget destination = true →
      jsTruthy options.dryRun = true →
      (∀ p, p ∈ fallbackProviderNames →
        (fallbackTransfer sys p source destination options).2 = [])
      ∧ (∀ p, p ∈ fallbackProviderNames →
        (fallbackTransfer sys p source destination options).1.success = true)
      ∧ (∀ p, p ∈ ([.robocopy, .xcopy, .ditto, .macCp, .cp, .scp] : List ProviderName) →
          ∃ args, dryRunArgs p source destination options = .ok args
            ∧ (fallbackTransfer sys p source destination options).1.output
                = "Would execute: " ++ providerKey p ++ " " ++ joinSp args)
      ∧ ((fallbackTransfer sys .tar source destination options).1.output
          = "Would create archive: " ++ destination.path ++ ".tar"
            ++ (if jsTruthy options.compress then ".gz" else "") ++ " from " ++ source.path)
      ∧ (∀ compat, sys.rsyncCompat = .ok compat → compat.isAvailable = true →
          ∃ cmd args,
            (fallbackTransfer sys .rsync source destination options).2 = [(cmd, args)]
            ∧ "--dry-run" ∈ cmd :: args) := by
  intro sys source destination options hs hd hdry
  rcases buildRobocopyArgs_ok options hs hd with ⟨rargs, hrargs⟩
  refine ⟨?_, ?_, ?_, ?_, ?_⟩
  · intro p hp
    fin_cases hp <;>
      simp [fallbackTransfer, robocopyTransfer, xcopyTransfer, dittoTransfer,
        macCpTransfer, cpTransfer, tarTransfer, scpTransfer, hdry, hrargs]
  · intro p hp
    fin_cases hp <;>
      simp [fallbackTransfer, robocopyTransfer, xcopyTransfer, dittoTransfer,
        macCpTransfer, cpTransfer, tarTransfer, scpTransfer, hdry, hrargs]
  · intro p hp
    fin_cases hp
    · exact ⟨rargs, hrargs, by
        simp [fallbackTransfer, robocopyTransfer, hrargs, hdry, providerKey]⟩
    · exact ⟨buildXCopyArgs source destination options, rfl, by
        simp [fallbackTransfer, xcopyTransfer, hdry, providerKey]⟩
    · exact ⟨buildDittoArgs source destination options, rfl, by
        simp [fallbackTransfer, dittoTransfer, hdry, providerKey]⟩
    · exact ⟨buildMacCpArgs source destination options, rfl, by
        simp [fallbackTransfer, macCpTransfer, hdry, providerKey]⟩
    · exact ⟨buildCpArgs source destination options, rfl, by
        simp [fallbackTransfer, cpTransfer, hdry, providerKey]⟩
    · exact ⟨buildScpArgs source destination options, rfl, by
        simp [fallbackTransfer, scpTransfer, hdry, providerKey]⟩
  · simp [fallbackTransfer, tarTransfer, hdry, str_append_assoc]
  · intro compat hc hav
    obtain ⟨r, cmd, args, hr, hmem⟩ := rsyncManagerTransfer_dryRun_spawn sys (some compat)
      (buildTargetString source) (buildTargetString destination)
      (toRsyncOptions options)
      (by show jsTruthy (some (jsTruthy options.dryRun)) = true
          rw [hdry]
          decide) rfl rfl rfl
    refine ⟨cmd, args, ?_, hmem⟩
    show (rsyncWrapperTransfer sys source destination options).2 = [(cmd, args)]
    unfold rsyncWrapperTransfer
    simp only [hc, hav, Bool.and_self, Bool.true_and, Bool.and_true]
    rw [hr]

/-- C7: for a completed robocopy execution (arguments built, no dry run,
subprocess resolved), the normalized success flag is true exactly for exit
codes up to 7 and false exactly from 8 on, and the exit code is the
subprocess's. -/
theorem robocopy_exit_code_success_threshold :
    ∀ (sys : SysOracle) (source destination : TransferTarget)
      (options : UnifiedTransferOptions) (args : List String) (r : ExecOutcome),
      jsTruthy options.dryRun = false →
      buildRobocopyArgs source destination options = .ok args →
      sys.exec "robocopy" args = .ok r →
      ((robocopyTransfer sys source destination options).1.success = true
        ↔ (robocopyTransfer sys source destination options).1.exitCode ≤ 7)
      ∧ ((robocopyTransfer sys source destination options).1.success = false
        ↔ 8 ≤ (robocopyTransfer sys source destination options).1.exitCode)
      ∧ (robocopyTransfer sys source destination options).1.exitCode = (r.exitCode : Int) := by
  intro sys source destination options args r hdry hargs hexec
  refine ⟨?_, ?_, ?_⟩ <;>
    simp [robocopyTransfer, hargs, hdry, hexec] <;> omega

/-- C9: pasteFiles hands the clipboard's source paths to deleteSourceFiles
exactly when the clipboard operation is a cut and the transfer result
reports success; a copy-paste, a failed cut-paste, and a throwing transfer
all leave the sources undeleted. -/
theorem cut_paste_deletes_sources_iff_success :
    ∀ (st : ClipboardState) (destination : TransferTarget)
      (runTransfer : TransferTarget → TransferTarget → List String → Except String TransferResult)
      (clip : CopyOperation),
      st.clipboard = some clip →
      clip.files ≠ [] →
      (((pasteFiles st destination runTransfer).deletedSources = deleteSourcePaths clip)
        ↔ (clip.type = CopyType.cut
            ∧ ∃ r, runTransfer clip.source destination clip.files = .ok r ∧ r.success = true))
      ∧ ((pasteFiles st destination runTransfer).deletedSources = []
          ∨ (pasteFiles st destination runTransfer).deletedSources = deleteSourcePaths clip) := by
  intro st destination runTransfer clip hclip hfiles
  have hne : deleteSourcePaths clip ≠ [] := by
    simpa [deleteSourcePaths] using hfiles
  have hred : pasteFiles st destination runTransfer =
      (match runTransfer clip.source destination clip.files with
        | Except.error e =>
          { result := Except.error e, deletedSources := []
            managerCreated := true, finalClipboard := some clip }
        | Except.ok r =>
          { result := Except.ok r
            deletedSources :=
              if clip.type = CopyType.cut ∧ r.success = true then deleteSourcePaths clip else []
            managerCreated := true, finalClipboard := some clip }) := by
    unfold pasteFiles
    rw [hclip]
  rw [hred]
  cases hrt : runTransfer clip.source destination clip.files with
  | error e =>
    constructor
    · constructor
      · intro h
        exact absurd h.symm hne
      · rintro ⟨-, r, hr, -⟩
        cases hr
    · exact Or.inl rfl
  | ok r =>
    by_cases hcs : clip.type = CopyType.cut ∧ r.success = true
    · constructor
      · exact ⟨fun _ => ⟨hcs.1, r, rfl, hcs.2⟩, fun _ => by simp [hcs]⟩
      · right
        simp [hcs]
    · constructor
      · constructor
        · intro h
          simp only [hcs, if_false] at h
          exact absurd h.symm hne
        · rintro ⟨hcut, r2, hr2, hsucc⟩
          rcases Except.ok.inj hr2 with rfl
          exact absurd ⟨hcut, hsucc⟩ hcs
      · left
        simp [hcs]

/-- C10: a paste on an empty clipboard (never filled, or cleared by
clearClipboard) throws the no-files error without creating a transfer
manager, without consulting the transfer path at all (the outcome is
independent of the transfer behaviour, so no method selection happens),
and without changing the clipboard. -/
theorem paste_empty_clipboard_throws :
    ∀ (st st2 : ClipboardState) (destination : TransferTarget)
      (rt rt2 : TransferTarget → TransferTarget → List String → Except String TransferResult),
      st.clipboard = none →
      (pasteFiles st destination rt =
        { result := .error "No files in clipboard", deletedSources := []
          managerCreated := false, finalClipboard := none })
      ∧ pasteFiles st destination rt = pasteFiles st destination rt2
      ∧ pasteFiles (clearClipboard st2) destination rt =
        { result := .error "No files in clipboard", deletedSources := []
          managerCreated := false, finalClipboard := none } := by
  intro st st2 destination rt rt2 hclip
  refine ⟨?_, ?_, ?_⟩
  · unfold pasteFiles
    rw [hclip]
  · unfold pasteFiles
    rw [hclip]
  · rfl

/-! ## Witnesses -/

/-- Witness for C1: scenario A — rsync available, strategy most-compatible,
both targets local. -/
theorem rsync_preferred_selected_witness :
    selectTransferMethod allFs
      { rsyncAvailable := true, availableProviders := [.cp, .tar, .scp] }
      srcLocal dstLocal { strategy := some .mostCompatible } =
      .ok { provider := .rsync, reason := "Rsync is available and preferred"
            rsyncAvailable := true, fallbackUsed := false } :=
  rsync_preferred_selected allFs
    { rsyncAvailable := true, availableProviders := [.cp, .tar, .scp] }
    srcLocal dstLocal { strategy := some .mostCompatible }
    rfl (by decide) rfl rfl

/-- Witness for C2: tar is named but unavailable, so selection equals the
no-preference selection. -/
theorem unavailable_preferred_method_falls_through_witness :
    selectTransferMethod allFs { rsyncAvailable := false, availableProviders := [.cp] }
      srcLocal dstLocal { preferredMethod := some "tar" } =
    selectTransferMethod allFs { rsyncAvailable := false, availableProviders := [.cp] }
      srcLocal dstLocal { preferredMethod := none } :=
  (unavailable_preferred_method_falls_through allFs
    { rsyncAvailable := false, availableProviders := [.cp] }
    srcLocal dstLocal { preferredMethod := some "tar" } "tar" rfl (by decide)).1

/-- Witness for C3: scenario C — remote destination, only a local-only tool
available, network fallback disallowed. -/
theorem network_filter_and_fatal_no_provider_witness :
    ((ProviderName.cp, (0 : Int)) ∉ suitableProviders allFs
        { rsyncAvailable := false, availableProviders := [.cp] } srcLocal dstRemote
        { allowNetworkFallback := some false })
    ∧ selectFallbackProvider allFs { rsyncAvailable := false, availableProviders := [.cp] }
        srcLocal dstRemote { allowNetworkFallback := some false } =
        .error "No suitable transfer providers available for the given targets and options" := by
  have h := network_filter_and_fatal_no_provider allFs
    { rsyncAvailable := false, availableProviders := [.cp] } srcLocal dstRemote
    { allowNetworkFallback := some false }
  exact ⟨h.1 (by decide) (by decide) .cp 0 (by decide), h.2 (by decide)⟩

/-- Witness for C4: scenario D on win32 — permissions requested, xcopy
penalised, robocopy selected under the compress strategy (margin 0). -/
theorem permission_penalty_scoring_and_selection_witness :
    (calculateProviderScore .xcopy .compress { preservePerms := some true } false =
      calculateProviderScore .xcopy .compress { preservePerms := some false } false - 5)
    ∧ selectFallbackProvider allFs
        ⟨true, availableProvidersOf .win32 (fun _ => true)⟩ srcLocal dstLocal
        { preservePerms := some true, strategy := some .compress } = .ok .robocopy := by
  have h := permission_penalty_scoring_and_selection
  refine ⟨h.1 .xcopy .compress { preservePerms := some true } false rfl rfl, ?_⟩
  exact h.2 .win32 (fun _ => true) true allFs srcLocal dstLocal
    { preservePerms := some true, strategy := some .compress } .xcopy .robocopy
    (-5) 0 (by decide) (by decide) rfl rfl rfl (by decide)

/-- Witness for C6 amended: a cp dry run records no spawn, tar's dry run
reports the would-create-archive message, and the rsync dry run against
the available tool records a spawned command carrying --dry-run. -/
theorem dry_run_never_spawns_amended_witness :
    ((fallbackTransfer trivialSys .cp srcLocal dstLocal { dryRun := some true }).2 = [])
    ∧ ((fallbackTransfer trivialSys .tar srcLocal dstLocal { dryRun := some true }).1.output
        = "Would create archive: " ++ dstLocal.path ++ ".tar"
          ++ (if jsTruthy ({ dryRun := some true } : UnifiedTransferOptions).compress
              then ".gz" else "")
          ++ " from " ++ srcLocal.path)
    ∧ (∃ cmd args,
        (fallbackTransfer trivialSys .rsync srcLocal dstLocal { dryRun := some true }).2
            = [(cmd, args)]
          ∧ "--dry-run" ∈ cmd :: args) := by
  have h := dry_run_never_spawns_amended trivialSys srcLocal dstLocal { dryRun := some true }
    (by decide) (by decide) rfl
  exact ⟨h.1 .cp (by decide), h.2.2.2.1, h.2.2.2.2 { isAvailable := true } rfl rfl⟩

/-- Witness for C7: a robocopy run that exits with code 7 is a success. -/
theorem robocopy_exit_code_success_threshold_witness :
    ((robocopyTransfer
        { trivialSys with exec := fun _ _ => .ok { exitCode := 7, output := "", error := "" } }
        srcLocal dstLocal {}).1.success = true
      ↔ (robocopyTransfer
        { trivialSys with exec := fun _ _ => .ok { exitCode := 7, output := "", error := "" } }
        srcLocal dstLocal {}).1.exitCode ≤ 7)
    ∧ (robocopyTransfer
        { trivialSys with exec := fun _ _ => .ok { exitCode := 7, output := "", error := "" } }
        srcLocal dstLocal {}).1.exitCode = ((7 : Nat) : Int) := by
  have h := robocopy_exit_code_success_threshold
    { trivialSys with exec := fun _ _ => .ok { exitCode := 7, output := "", error := "" } }
    srcLocal dstLocal {}
    ["\"/tmp/data\"", "\"/tmp/out\"", "*.*", "/E", "/COPYALL", "/DCOPY:DAT", "/NP"]
    { exitCode := 7, output := "", error := "" }
    rfl rfl rfl
  exact ⟨h.1, h.2.2⟩

/-- Witness for C9: a successful cut-paste hands exactly the clipboard's
source paths to deletion. -/
theorem cut_paste_deletes_sources_iff_success_witness :
    (pasteFiles clipStateFixture dstLocal okRunTransfer).deletedSources
        = deleteSourcePaths clipCutFixture
      ↔ (clipCutFixture.type = CopyType.cut
          ∧ ∃ r, okRunTransfer clipCutFixture.source dstLocal clipCutFixture.files = .ok r
              ∧ r.success = true) :=
  (cut_paste_deletes_sources_iff_success clipStateFixture dstLocal okRunTransfer
    clipCutFixture rfl (by decide)).1

/-- Witness for C10: pasting with an empty clipboard throws the
no-files-in-clipboard error with nothing else done. -/
theorem paste_empty_clipboard_throws_witness :
    pasteFiles emptyClipState dstLocal okRunTransfer =
      { result := .error "No files in clipboard", deletedSources := []
        managerCreated := false, finalClipboard := none } :=
  (paste_empty_clipboard_throws emptyClipState emptyClipState dstLocal
    okRunTransfer okRunTransfer rfl).1

end FastTransfer
